import Mathlib

/-!
Verification of the ADK Admissions-AI pipeline against its specification.

Shallow embedding of the two source files of the repository:

* `app/profile_manager.py` — profile persistence (load/save on a JSON document)
  and the interactive profile editor;
* `app/agent.py` — the student-profile CLI collector, the pydantic record
  schemas (`UniversityInfo`, `CurrentPerformer`, `ChampionshipResult`,
  `SportsInfo`), and `create_agent_pipeline`, which assembles the sequential
  five-stage agent pipeline.

Python dictionaries are embedded as insertion-ordered association lists over a
JSON-like value type; fallible Python operations are embedded in `Except` with
an explicit exception type, and `try`/`except` handlers become matches on the
`Except` result.  Machine-level floats do not occur: the numeric literals and
the numeric parsing in this program are exact decimals, embedded as `ℚ`.
-/

namespace AdmissionsAI

/-- JSON-like values, as produced by Python's `json.load` and stored in the
profile dictionary.  Python's `int` and `float` are kept apart, as `json`
keeps them apart; both are exact here (`ℤ`, `ℚ`). -/
inductive JValue where
  | str (s : String)
  | int (n : ℤ)
  | float (q : ℚ)
  | bool (b : Bool)
  | null
  | arr (xs : List JValue)
  | obj (fields : List (String × JValue))

/-- A Python dict with string keys: an insertion-ordered association list.
`StudentProfile` documents and pipeline-state mappings both take this form. -/
abbrev PyDict := List (String × JValue)

/-- First value bound to `key`, i.e. Python `d.get(key)` / `d[key]`. -/
def dictGet {α : Type} : List (String × α) → String → Option α
  | [], _ => none
  | (k, v) :: rest, key => if k = key then some v else dictGet rest key

/-- Python `d[key] = v`: replace the binding in place if the key is present
(insertion order preserved), append it otherwise. -/
def dictSet {α : Type} : List (String × α) → String → α → List (String × α)
  | [], key, v => [(key, v)]
  | (k, w) :: rest, key, v =>
      if k = key then (key, v) :: rest else (k, w) :: dictSet rest key v

theorem dictGet_dictSet_self {α : Type} (m : List (String × α)) (k : String) (v : α) :
    dictGet (dictSet m k v) k = some v := by
  induction m with
  | nil => simp [dictGet, dictSet]
  | cons hd tl ih =>
      obtain ⟨k', w⟩ := hd
      by_cases h : k' = k
      · simp [dictGet, dictSet, h]
      · simp [dictGet, dictSet, h, ih]

theorem dictGet_dictSet_ne {α : Type} (m : List (String × α)) (k k' : String) (v : α)
    (h : k' ≠ k) : dictGet (dictSet m k' v) k = dictGet m k := by
  induction m with
  | nil => simp [dictGet, dictSet, h]
  | cons hd tl ih =>
      obtain ⟨k₀, w⟩ := hd
      by_cases h0 : k₀ = k'
      · subst h0
        simp [dictGet, dictSet, h]
      · simp only [dictSet, if_neg h0]
        by_cases h1 : k₀ = k
        · simp [dictGet, h1]
        · simp [dictGet, h1, ih]

/-- Exceptions that can arise in the embedded fragment of the program. -/
inductive PyExc where
  | ioError
  | jsonDecodeError
  | valueError
  | keyError (key : String)
  | validationError
deriving DecidableEq

/-- Python `d[key]` on a dict: the value, or a `KeyError`. -/
def pyGetItem (m : PyDict) (key : String) : Except PyExc JValue :=
  match dictGet m key with
  | some v => .ok v
  | none => .error (.keyError key)

/-! ## Profile Store (`app/profile_manager.py`)

The persisted document `student_profile.json` is embedded as a `FileContent`:
either the file is absent, or opening/reading it raises `IOError`, or
`json.load` raises `JSONDecodeError`, or parsing succeeds with some `JValue`.
A `Storage` additionally records whether the file can be written (an
unwritable store makes `open(..., 'w')` raise `IOError`). -/

/-- The possible conditions of the persisted profile document. -/
inductive FileContent where
  | absent
  | unreadable
  | unparsable
  | doc (j : JValue)

/-- The profile store: the document plus write permission. -/
structure Storage where
  file : FileContent
  writable : Bool

/-- Source `os.path.exists(PROFILE_FILE)`. -/
def osPathExists : FileContent → Bool
  | .absent => false
  | _ => true

/-- Predicate `JValue.isObj j = true` iff `isinstance(j, dict)` holds in Python. -/
def JValue.isObj : JValue → Bool
  | .obj _ => true
  | _ => false

/-- Source `get_default_profile` (profile_manager.py lines 7–28), transcribed. -/
def get_default_profile : PyDict :=
  [("full_name", .str "Alice Morgan"),
   ("grade_level", .str "11th"),
   ("primary_sport", .str "Track and Field"),
   ("events", .arr [.str "55m", .str "100m", .str "200m", .str "Long Jump"]),
   ("personal_records", .obj
      [("55M", .str "7.6"),
       ("100m", .str "12.45"),
       ("200m", .str "25.80"),
       ("Long_Jump", .str "5.20m")]),
   ("gender", .str "Female"),
   ("unweighted_gpa", .float (mkRat 79 20)),
   ("gpa_scale", .float 4),
   ("sat_score", .int 1280),
   ("act_score", .str "N/A"),
   ("high_school", .str "My High School")]

/-- The raw body of `save_profile`'s `try` block:
`open(PROFILE_FILE, 'w')` followed by `json.dump(profile_data, f)`.
On an unwritable store the `open` raises `IOError`; otherwise the document
becomes the JSON object serialising `profile_data`. -/
def writeProfileDoc (profile_data : PyDict) (st : Storage) : Except PyExc Storage :=
  if st.writable then .ok { st with file := .doc (.obj profile_data) }
  else .error .ioError

/-- Source `save_profile` (profile_manager.py lines 30–41).  The `try` body may raise;
the `except IOError` and `except Exception` handlers print a message and fall
through, so the call itself returns normally in every case. -/
def save_profile (profile_data : PyDict) (st : Storage) : Except PyExc Storage :=
  match writeProfileDoc profile_data st with
  | .ok st' => .ok st'
  | .error .ioError => .ok st
  | .error _ => .ok st

/-- The storage state after a `save_profile` call (which never raises). -/
def saveRun (profile_data : PyDict) (st : Storage) : Storage :=
  match save_profile profile_data st with
  | .ok st' => st'
  | .error _ => st

/-- The raw body of `load_profile`'s `try` block up to the `return`:
`open(PROFILE_FILE, 'r')`, `json.load(f)`, then the `isinstance(..., dict)`
check that raises `ValueError` on a non-dict document. -/
def readProfileBody : FileContent → Except PyExc PyDict
  | .absent => .error .ioError
  | .unreadable => .error .ioError
  | .unparsable => .error .jsonDecodeError
  | .doc j => match j with
      | .obj m => .ok m
      | _ => .error .valueError

/-- Source `load_profile` (profile_manager.py lines 43–80).  Absent file: save and
return the default.  `JSONDecodeError` / `ValueError`: save the default over
the bad document and return it.  `IOError` and any other exception: return the
default without saving. -/
def load_profile (st : Storage) : Except PyExc (PyDict × Storage) :=
  if osPathExists st.file = false then
    (save_profile get_default_profile st).map (fun st' => (get_default_profile, st'))
  else
    match readProfileBody st.file with
    | .ok profile_data => .ok (profile_data, st)
    | .error .jsonDecodeError =>
        (save_profile get_default_profile st).map (fun st' => (get_default_profile, st'))
    | .error .valueError =>
        (save_profile get_default_profile st).map (fun st' => (get_default_profile, st'))
    | .error .ioError => .ok (get_default_profile, st)
    | .error _ => .ok (get_default_profile, st)

/-- C2 — For every well-formed StudentProfile `P` (every `PyDict`, i.e. every
JSON-serialisable dict with string keys) and every writable store, loading
immediately after `save_profile P` succeeds and returns exactly `P` with the
store as the save left it: the save/load round trip is the identity. -/
theorem save_load_round_trip (P : PyDict) (st st' : Storage)
    (hw : st.writable = true) (hsave : save_profile P st = .ok st') :
    load_profile st' = .ok (P, st') := by
  have hst' : st' = { file := .doc (.obj P), writable := true } := by
    simp [save_profile, writeProfileDoc, hw] at hsave
    exact hsave.symm
  subst hst'
  simp [load_profile, osPathExists, readProfileBody]

/-- Witness for C2: the round trip at the default profile over an initially
absent, writable store. -/
theorem save_load_round_trip_witness :
    load_profile { file := .doc (.obj get_default_profile), writable := true } =
      .ok (get_default_profile, { file := .doc (.obj get_default_profile), writable := true }) :=
  save_load_round_trip get_default_profile { file := .absent, writable := true }
    { file := .doc (.obj get_default_profile), writable := true } rfl rfl

/-- C3 — No Profile Store operation raises outward: `save_profile` returns
normally on every store (its handlers catch `IOError` and `Exception`), and
`load_profile` returns normally on every store; moreover for an absent,
unparsable, or non-dict document, `load_profile` returns the default profile
after persisting it (the persist attempt being exactly a `save_profile` call). -/
theorem profile_store_never_raises :
    (∀ (p : PyDict) (st : Storage), ∃ st', save_profile p st = .ok st') ∧
    (∀ st : Storage, ∃ q st', load_profile st = .ok (q, st')) ∧
    (∀ st : Storage, st.file = .absent →
      load_profile st = .ok (get_default_profile, saveRun get_default_profile st)) ∧
    (∀ st : Storage, st.file = .unparsable →
      load_profile st = .ok (get_default_profile, saveRun get_default_profile st)) ∧
    (∀ (st : Storage) (j : JValue), st.file = .doc j → j.isObj = false →
      load_profile st = .ok (get_default_profile, saveRun get_default_profile st)) := by
  have hsave : ∀ (p : PyDict) (st : Storage), ∃ st', save_profile p st = .ok st' := by
    intro p st
    cases hw : st.writable <;> simp [save_profile, writeProfileDoc, hw]
  have hsaveRun : ∀ (p : PyDict) (st : Storage), save_profile p st = .ok (saveRun p st) := by
    intro p st
    obtain ⟨st', h⟩ := hsave p st
    simp [saveRun, h]
  have hmap : ∀ st : Storage,
      (save_profile get_default_profile st).map (fun st' => (get_default_profile, st')) =
        .ok (get_default_profile, saveRun get_default_profile st) := by
    intro st
    rw [hsaveRun]
    rfl
  refine ⟨hsave, ?_, ?_, ?_, ?_⟩
  · intro st
    obtain ⟨f, w⟩ := st
    cases f with
    | absent =>
        exact ⟨get_default_profile,
          saveRun get_default_profile { file := .absent, writable := w },
          by simp [load_profile, osPathExists, hmap]⟩
    | unreadable =>
        exact ⟨get_default_profile, { file := .unreadable, writable := w },
          by simp [load_profile, osPathExists, readProfileBody]⟩
    | unparsable =>
        exact ⟨get_default_profile,
          saveRun get_default_profile { file := .unparsable, writable := w },
          by simp [load_profile, osPathExists, readProfileBody, hmap]⟩
    | doc j =>
        cases j with
        | obj m =>
            exact ⟨m, { file := .doc (.obj m), writable := w },
              by simp [load_profile, osPathExists, readProfileBody]⟩
        | str s =>
            exact ⟨get_default_profile,
              saveRun get_default_profile { file := .doc (.str s), writable := w },
              by simp [load_profile, osPathExists, readProfileBody, hmap]⟩
        | int n =>
            exact ⟨get_default_profile,
              saveRun get_default_profile { file := .doc (.int n), writable := w },
              by simp [load_profile, osPathExists, readProfileBody, hmap]⟩
        | float q =>
            exact ⟨get_default_profile,
              saveRun get_default_profile { file := .doc (.float q), writable := w },
              by simp [load_profile, osPathExists, readProfileBody, hmap]⟩
        | bool b =>
            exact ⟨get_default_profile,
              saveRun get_default_profile { file := .doc (.bool b), writable := w },
              by simp [load_profile, osPathExists, readProfileBody, hmap]⟩
        | null =>
            exact ⟨get_default_profile,
              saveRun get_default_profile { file := .doc .null, writable := w },
              by simp [load_profile, osPathExists, readProfileBody, hmap]⟩
        | arr xs =>
            exact ⟨get_default_profile,
              saveRun get_default_profile { file := .doc (.arr xs), writable := w },
              by simp [load_profile, osPathExists, readProfileBody, hmap]⟩
  · intro st h
    obtain ⟨f, w⟩ := st
    cases h
    simp [load_profile, osPathExists, hmap]
  · intro st h
    obtain ⟨f, w⟩ := st
    cases h
    simp [load_profile, osPathExists, readProfileBody, hmap]
  · intro st j h hobj
    obtain ⟨f, w⟩ := st
    cases h
    cases j <;> simp_all [JValue.isObj] <;>
      simp [load_profile, osPathExists, readProfileBody, hsaveRun, Except.map]

/-- Witness for C3: concrete stores — save over an unwritable store returns
normally; load over an absent store, an unparsable store, and a store holding
a JSON array (not a dict) each synthesize, persist and return the default. -/
theorem profile_store_never_raises_witness :
    (∃ st', save_profile get_default_profile { file := .absent, writable := false } = .ok st') ∧
    load_profile { file := .absent, writable := true } =
      .ok (get_default_profile, saveRun get_default_profile { file := .absent, writable := true }) ∧
    load_profile { file := .unparsable, writable := true } =
      .ok (get_default_profile, saveRun get_default_profile { file := .unparsable, writable := true }) ∧
    load_profile { file := .doc (.arr []), writable := true } =
      .ok (get_default_profile, saveRun get_default_profile { file := .doc (.arr []), writable := true }) :=
  ⟨profile_store_never_raises.1 get_default_profile _,
   profile_store_never_raises.2.2.1 _ rfl,
   profile_store_never_raises.2.2.2.1 _ rfl,
   profile_store_never_raises.2.2.2.2 _ (.arr []) rfl rfl⟩

/-- C9 — `load_profile` validates only that the parsed document is a dict:
every document parsing to a dict `m` is returned unchanged — no schema
validation, no defaulting of missing fields, no trimming of extra fields —
and the store is left untouched. -/
theorem load_profile_no_schema_validation (m : PyDict) (st : Storage)
    (h : st.file = .doc (.obj m)) : load_profile st = .ok (m, st) := by
  obtain ⟨f, w⟩ := st
  cases h
  simp [load_profile, osPathExists, readProfileBody]

/-- Witness for C9: a persisted dict with no StudentProfile field at all
(a single unrelated key) is returned exactly as stored. -/
theorem load_profile_no_schema_validation_witness :
    load_profile { file := .doc (.obj [("unrelated_key", .int 1)]), writable := true } =
      .ok ([("unrelated_key", .int 1)],
           { file := .doc (.obj [("unrelated_key", .int 1)]), writable := true }) :=
  load_profile_no_schema_validation [("unrelated_key", .int 1)] _ rfl

/-! ## Numeric input parsing

`update_profile_interactively` and `get_student_profile` convert raw CLI text
with Python's `float(...)` / `int(...)`.  The embedding covers the plain
decimal forms (optional sign, digits, optional decimal point); the exotic
float syntaxes (`inf`, `nan`, exponents, underscores) play no role in this
program's prompts and are rejected here. -/

/-- Decimal digit value of a character (its position among `'0'..'9'`),
`none` for non-digits. -/
def digitVal (c : Char) : Option ℕ :=
  ['0', '1', '2', '3', '4', '5', '6', '7', '8', '9'].findIdx? (fun d => d == c)

/-- ASCII decimal-digit test (Python `str.isdigit` on the relevant inputs). -/
def isDigitCh (c : Char) : Bool := (digitVal c).isSome

/-- Numeric value of a digit string (no validation; callers validate). -/
def natOfDigits (cs : List Char) : ℕ :=
  cs.foldl (fun a c => 10 * a + (digitVal c).getD 0) 0

/-- Python `float(s)`: `some` of the exact decimal value, `none` when the
call raises `ValueError`.  The decimal `i.f` is the rational
`(i·10^|f| + f) / 10^|f|`, built with `mkRat`. -/
def pyFloat (s : String) : Option ℚ :=
  let core : List Char → Option ℚ := fun cs =>
    let ip := cs.takeWhile isDigitCh
    let rest := cs.dropWhile isDigitCh
    match rest with
    | [] => if ip.isEmpty then none else some (mkRat (natOfDigits ip) 1)
    | '.' :: fp =>
        if fp.all isDigitCh && (!ip.isEmpty || !fp.isEmpty) then
          some (mkRat (natOfDigits ip * 10 ^ fp.length + natOfDigits fp) (10 ^ fp.length))
        else none
    | _ => none
  match s.data with
  | '+' :: r => core r
  | '-' :: r => (core r).map (fun q => -q)
  | r => core r

/-- Python `int(s)`: `some` of the integer value, `none` when the call raises
`ValueError`. -/
def pyInt (s : String) : Option ℤ :=
  let core : List Char → Option ℤ := fun cs =>
    if !cs.isEmpty && cs.all isDigitCh then some (natOfDigits cs) else none
  match s.data with
  | '+' :: r => core r
  | '-' :: r => (core r).map (fun n => -n)
  | r => core r

/-! ## Profile Editor (`update_profile_interactively`, profile_manager.py 82–133)

The user's console answers are embedded as a list of strings, one per prompt
in prompt order; a missing answer reads as the empty string (Enter). -/

/-- The expected Python type of an interactively editable field. -/
inductive PyFieldTy where
  | str
  | float
  | int
deriving DecidableEq

/-- Source `fields_to_update` (profile_manager.py lines 94–102), in source order. -/
def fields_to_update : List (String × PyFieldTy) :=
  [("full_name", .str),
   ("grade_level", .str),
   ("primary_sport", .str),
   ("gender", .str),
   ("unweighted_gpa", .float),
   ("sat_score", .int),
   ("high_school", .str)]

/-- One iteration of the update loop (profile_manager.py lines 104–123):
empty input keeps the current value; otherwise the input is converted to the
field's type and stored, and a failed conversion keeps the current value
(with a warning printed). -/
def applyFieldUpdate (acc : PyDict) (key : String) (ty : PyFieldTy) (ui : String) : PyDict :=
  if ui = "" then acc
  else
    match ty with
    | .float =>
        match pyFloat ui with
        | some q => dictSet acc key (.float q)
        | none => acc
    | .int =>
        match pyInt ui with
        | some n => dictSet acc key (.int n)
        | none => acc
    | .str => dictSet acc key (.str ui)

/-- The update loop over the field list, consuming one console answer per
field. -/
def runUpdates : List String → List (String × PyFieldTy) → PyDict → PyDict
  | _, [], acc => acc
  | inputs, (key, ty) :: rest, acc =>
      runUpdates inputs.tail rest (applyFieldUpdate acc key ty (inputs.headD ""))

/-- Source `update_profile_interactively` (profile_manager.py lines 82–133): works on
a copy of the input dict, runs the update loop over `fields_to_update`, prints
the complex fields without touching them, and returns the copy. -/
def update_profile_interactively (inputs : List String) (current_profile : PyDict) : PyDict :=
  runUpdates inputs fields_to_update current_profile

/-- Source `get_student_profile` (agent.py lines 19–65): CLI collection of the basic
fields with `input(...) or default` fallbacks, `float`/`int` conversion
guarded by `try`/`except ValueError` falling back to the documented defaults,
and fixed default values for the remaining fields. -/
def get_student_profile (inputs : List String) : PyDict :=
  let full_name := if inputs.getD 0 "" = "" then "Alex Morgan" else inputs.getD 0 ""
  let grade_level := if inputs.getD 1 "" = "" then "11th" else inputs.getD 1 ""
  let primary_sport := if inputs.getD 2 "" = "" then "Track and Field" else inputs.getD 2 ""
  let gender := if inputs.getD 3 "" = "" then "Female" else inputs.getD 3 ""
  let unweighted_gpa_str := inputs.getD 4 ""
  let unweighted_gpa : ℚ :=
    if unweighted_gpa_str = "" then mkRat 15 4
    else match pyFloat unweighted_gpa_str with
      | some q => q
      | none => mkRat 15 4
  let sat_score_str := inputs.getD 5 ""
  let sat_score : ℤ :=
    if sat_score_str = "" then 1380
    else match pyInt sat_score_str with
      | some n => n
      | none => 1380
  [("full_name", .str full_name),
   ("grade_level", .str grade_level),
   ("primary_sport", .str primary_sport),
   ("events", .arr [.str "55m", .str "100m", .str "200m", .str "Long Jump"]),
   ("personal_records", .obj
      [("55M", .str "7.6"),
       ("100m", .str "12.45"),
       ("200m", .str "25.80"),
       ("Long_Jump", .str "5.20m")]),
   ("gender", .str gender),
   ("unweighted_gpa", .float unweighted_gpa),
   ("gpa_scale", .float 4),
   ("sat_score", .int sat_score),
   ("act_score", .str "N/A"),
   ("high_school", .str "My High School")]

/-- C7 — Running the interactive update with the empty answer at each of the
seven prompts returns a profile identical to the input, for every input
profile: empty input keeps every current value. -/
theorem empty_input_update_is_identity (p : PyDict) :
    update_profile_interactively (List.replicate 7 "") p = p := rfl

/-- Keys outside the editable field list are untouched by the update loop,
whatever the user types. -/
theorem runUpdates_preserves_other_keys (key : String) :
    ∀ (fields : List (String × PyFieldTy)) (inputs : List String) (acc : PyDict),
      (∀ f ∈ fields, f.1 ≠ key) →
      dictGet (runUpdates inputs fields acc) key = dictGet acc key := by
  intro fields
  induction fields with
  | nil =>
      intro inputs acc _
      rfl
  | cons fd rest ih =>
      intro inputs acc h
      obtain ⟨k, ty⟩ := fd
      have hk : k ≠ key := h (k, ty) (List.mem_cons_self _ _)
      have hrest : ∀ f ∈ rest, f.1 ≠ key := fun f hf => h f (List.mem_cons_of_mem _ hf)
      show dictGet (runUpdates inputs.tail rest (applyFieldUpdate acc k ty (inputs.headD ""))) key
          = dictGet acc key
      rw [ih inputs.tail _ hrest]
      generalize inputs.headD "" = ui
      by_cases hui : ui = ""
      · simp only [applyFieldUpdate, if_pos hui]
      · cases ty with
        | str =>
            simp only [applyFieldUpdate, if_neg hui]
            exact dictGet_dictSet_ne acc key k _ hk
        | float =>
            simp only [applyFieldUpdate, if_neg hui]
            cases hpf : pyFloat ui
            · rfl
            · exact dictGet_dictSet_ne acc key k _ hk
        | int =>
            simp only [applyFieldUpdate, if_neg hui]
            cases hpi : pyInt ui
            · rfl
            · exact dictGet_dictSet_ne acc key k _ hk

/-- C8 — The interactive update never writes the nested complex fields: for
every input profile and every sequence of console answers, the `events` and
`personal_records` entries of the returned profile are those of the input.
(The embedded operation is a pure function of the input dict: the Python code
works on `current_profile.copy()` and only ever assigns into the copy, so the
input dict itself is never mutated.) -/
theorem update_never_mutates_nested_fields (inputs : List String) (p : PyDict) :
    dictGet (update_profile_interactively inputs p) "events" = dictGet p "events" ∧
    dictGet (update_profile_interactively inputs p) "personal_records" =
      dictGet p "personal_records" := by
  constructor <;> (apply runUpdates_preserves_other_keys; decide)

/-- C5, counterexample — typing `4.5` at the GPA prompt over the default
profile (GPA 3.95, scale 4.0): the value parses as a float and is stored, so
the out-of-range GPA 4.5 > 4.0 replaces 3.95.  No `[0, scale]` bounds check
and no re-prompt exists in the code. -/
theorem gpa_bounds_not_validated :
    dictGet (update_profile_interactively ["", "", "", "", "4.5", "", ""] get_default_profile)
        "unweighted_gpa" = some (.float (mkRat 9 2)) ∧
    dictGet get_default_profile "unweighted_gpa" = some (.float (mkRat 79 20)) ∧
    dictGet get_default_profile "gpa_scale" = some (.float 4) ∧
    mkRat 9 2 = 9/2 ∧ mkRat 79 20 = 79/20 ∧ ¬ ((9 : ℚ)/2 ≤ 4) :=
  ⟨rfl, rfl, rfl, by norm_num [Rat.mkRat_eq_div], by norm_num [Rat.mkRat_eq_div],
   by norm_num⟩

/-- C5, amended — numeric profile input is validated by type conversion only:
any console answer that parses as a float is accepted for the GPA field
regardless of the `[0, scale]` bounds, both in the interactive editor and in
the CLI collector (which substitutes the default 3.75 on a parse failure);
no bounds check and no re-prompt loop exists. -/
theorem numeric_input_parse_only (s : String) (q : ℚ) (p : PyDict)
    (h : pyFloat s = some q) :
    dictGet (update_profile_interactively ["", "", "", "", s, "", ""] p) "unweighted_gpa"
        = some (.float q) ∧
    dictGet (get_student_profile ["", "", "", "", s, ""]) "unweighted_gpa"
        = some (.float q) := by
  have hs : s ≠ "" := by
    intro h0
    rw [h0] at h
    simp [pyFloat] at h
  constructor
  · simp only [update_profile_interactively, fields_to_update, runUpdates, applyFieldUpdate,
      List.headD_cons, List.tail_cons]
    simp [hs, h, dictGet_dictSet_self]
  · simp [get_student_profile, hs, h, dictGet]

/-- Witness for the amended C5 at the concrete out-of-bounds input `4.5`. -/
theorem numeric_input_parse_only_witness :
    pyFloat "4.5" = some (mkRat 9 2) ∧
    dictGet (update_profile_interactively ["", "", "", "", "4.5", "", ""] get_default_profile)
        "unweighted_gpa" = some (.float (mkRat 9 2)) ∧
    dictGet (get_student_profile ["", "", "", "", "4.5", ""]) "unweighted_gpa"
        = some (.float (mkRat 9 2)) :=
  ⟨rfl,
   (numeric_input_parse_only "4.5" (mkRat 9 2) get_default_profile rfl).1,
   (numeric_input_parse_only "4.5" (mkRat 9 2) get_default_profile rfl).2⟩

/-! ## Structured record schemas (agent.py lines 72–116)

The four pydantic models are embedded as field tables: each declared field
has a name, an expected type, and an optional default.  A field declared
`x: str = Field(description=...)` has no default and is required; a field
declared with `default="N/A"` carries that default; `Optional[str]` admits
`None` as a value.  `validateModel` embeds pydantic's construction of a
record from keyword/JSON input: a missing required field is a validation
error, a missing defaulted field takes its default, a present field must
match its declared type. -/

/-- Declared pydantic field types occurring in the schemas. -/
inductive FieldTy where
  | str
  | optStr
  | list
deriving DecidableEq

/-- One declared pydantic field. -/
structure FieldSpec where
  name : String
  ty : FieldTy
  default : Option JValue

/-- Type acceptance: `str` admits strings, `Optional[str]` admits strings and
`None`, `List[...]` admits arrays. -/
def tyOk : FieldTy → JValue → Bool
  | .str, .str _ => true
  | .optStr, .str _ => true
  | .optStr, .null => true
  | .list, .arr _ => true
  | _, _ => false

/-- Schema `UniversityInfo` (agent.py lines 72–86): fourteen required `str` fields. -/
def UniversityInfo.fields : List FieldSpec :=
  [⟨"college_name", .str, none⟩,
   ⟨"college_type", .str, none⟩,
   ⟨"campus_setting", .str, none⟩,
   ⟨"campus_size", .str, none⟩,
   ⟨"graduation_rate", .str, none⟩,
   ⟨"acceptance_rate", .str, none⟩,
   ⟨"website", .str, none⟩,
   ⟨"sat_range", .str, none⟩,
   ⟨"act_range", .str, none⟩,
   ⟨"regular_application_due", .str, none⟩,
   ⟨"tuition", .str, none⟩,
   ⟨"other_fees", .str, none⟩,
   ⟨"student_body", .str, none⟩,
   ⟨"race_ethnicity", .str, none⟩]

/-- Schema `CurrentPerformer` (agent.py lines 89–95): `ranking` and `class_year` are
`Optional[str]` with default `"N/A"`; the rest are required `str`. -/
def CurrentPerformer.fields : List FieldSpec :=
  [⟨"name", .str, none⟩,
   ⟨"mark", .str, none⟩,
   ⟨"ranking", .optStr, some (.str "N/A")⟩,
   ⟨"class_year", .optStr, some (.str "N/A")⟩,
   ⟨"event_category", .str, none⟩,
   ⟨"sport", .str, none⟩]

/-- Schema `ChampionshipResult` (agent.py lines 98–101): all three fields required. -/
def ChampionshipResult.fields : List FieldSpec :=
  [⟨"event_name", .str, none⟩,
   ⟨"gender", .str, none⟩,
   ⟨"finalists", .list, none⟩]

/-- Schema `SportsInfo` (agent.py lines 104–116): ten required `str` fields plus the
two list fields `current_performers` and `championship_results`, which are
declared with `Field(description=...)` and **no default**. -/
def SportsInfo.fields : List FieldSpec :=
  [⟨"ncaa_division", .str, none⟩,
   ⟨"conference", .str, none⟩,
   ⟨"facilities", .str, none⟩,
   ⟨"coaching_staff", .str, none⟩,
   ⟨"team_roster", .str, none⟩,
   ⟨"team_page_url", .str, none⟩,
   ⟨"current_performers", .list, none⟩,
   ⟨"championship_results", .list, none⟩,
   ⟨"recruiting_standards", .str, none⟩,
   ⟨"walk_on_standards", .str, none⟩,
   ⟨"conference_qualifying_marks", .str, none⟩,
   ⟨"team_depth_analysis", .str, none⟩]

/-- Pydantic record construction from an input mapping, per the field table. -/
def validateModel : List FieldSpec → PyDict → Except PyExc PyDict
  | [], _ => .ok []
  | s :: rest, input =>
      match dictGet input s.name, s.default with
      | some v, _ =>
          if tyOk s.ty v then (validateModel rest input).map (fun r => (s.name, v) :: r)
          else .error .validationError
      | none, some d => (validateModel rest input).map (fun r => (s.name, d) :: r)
      | none, none => .error .validationError

theorem exceptMap_ok {ε α β : Type} (f : α → β) (e : Except ε α) (b : β)
    (h : e.map f = .ok b) : ∃ a, e = .ok a ∧ f a = b := by
  cases e with
  | ok a => exact ⟨a, rfl, by simpa [Except.map] using h⟩
  | error err => simp [Except.map] at h

/-- Every successfully validated record binds every declared field, to the
type-checked input value when the field was supplied and to the declared
default when it was not. -/
theorem validateModel_ok_fields :
    ∀ {specs : List FieldSpec} {input r : PyDict},
      (specs.map FieldSpec.name).Nodup →
      validateModel specs input = .ok r →
      ∀ s ∈ specs, ∃ v, dictGet r s.name = some v ∧
        ((dictGet input s.name = some v ∧ tyOk s.ty v = true) ∨
         (dictGet input s.name = none ∧ s.default = some v)) := by
  intro specs
  induction specs with
  | nil =>
      intro input r _ _ s hs
      simp at hs
  | cons t rest ih =>
      intro input r hnd h s hs
      have hnotin : t.name ∉ rest.map FieldSpec.name := (List.nodup_cons.mp hnd).1
      have hnd' : (rest.map FieldSpec.name).Nodup := (List.nodup_cons.mp hnd).2
      cases hv : dictGet input t.name with
      | some v =>
          cases hty : tyOk t.ty v with
          | false => simp [validateModel, hv, hty] at h
          | true =>
              simp only [validateModel, hv, hty, if_true] at h
              obtain ⟨r', hr', hcons⟩ := exceptMap_ok _ _ _ h
              subst hcons
              rcases List.mem_cons.mp hs with rfl | hs'
              · exact ⟨v, by simp [dictGet], Or.inl ⟨hv, hty⟩⟩
              · have hne : t.name ≠ s.name := fun he =>
                  hnotin (he ▸ List.mem_map_of_mem FieldSpec.name hs')
                obtain ⟨w, hw, hor⟩ := ih hnd' hr' s hs'
                exact ⟨w, by simpa [dictGet, hne] using hw, hor⟩
      | none =>
          cases hd : t.default with
          | none => simp [validateModel, hv, hd] at h
          | some d =>
              simp only [validateModel, hv, hd] at h
              obtain ⟨r', hr', hcons⟩ := exceptMap_ok _ _ _ h
              subst hcons
              rcases List.mem_cons.mp hs with rfl | hs'
              · exact ⟨d, by simp [dictGet], Or.inr ⟨hv, hd⟩⟩
              · have hne : t.name ≠ s.name := fun he =>
                  hnotin (he ▸ List.mem_map_of_mem FieldSpec.name hs')
                obtain ⟨w, hw, hor⟩ := ih hnd' hr' s hs'
                exact ⟨w, by simpa [dictGet, hne] using hw, hor⟩

/-- A type-checked value of a non-`Optional` field is never `None`. -/
theorem tyOk_ne_null {ty : FieldTy} {v : JValue}
    (hty : ty ≠ FieldTy.optStr) (h : tyOk ty v = true) : v ≠ JValue.null := by
  intro hnull
  subst hnull
  cases ty <;> simp [tyOk] at h ⊢
  exact hty rfl

/-- The `current_performers` field declaration of `SportsInfo`. -/
theorem current_performers_mem_sports :
    (⟨"current_performers", FieldTy.list, none⟩ : FieldSpec) ∈ SportsInfo.fields := by
  simp [SportsInfo.fields]

/-- The `championship_results` field declaration of `SportsInfo`. -/
theorem championship_results_mem_sports :
    (⟨"championship_results", FieldTy.list, none⟩ : FieldSpec) ∈ SportsInfo.fields := by
  simp [SportsInfo.fields]

/-- C4, counterexample — the SportsInfo list fields do **not** default to an
empty list: validating an input that supplies all ten scalar fields but
neither list field is a validation error (the fields are required), where the
claim predicts a successful record with empty lists. -/
theorem sports_list_fields_have_no_default :
    validateModel SportsInfo.fields
      [("ncaa_division", .str "NCAA Division I"),
       ("conference", .str "ACC"),
       ("facilities", .str "N/A"),
       ("coaching_staff", .str "N/A"),
       ("team_roster", .str "N/A"),
       ("team_page_url", .str "N/A"),
       ("recruiting_standards", .str "N/A"),
       ("walk_on_standards", .str "N/A"),
       ("conference_qualifying_marks", .str "N/A"),
       ("team_depth_analysis", .str "N/A")]
      = .error .validationError := rfl

/-- C4, amended — in every successfully constructed UniversityInfo or
SportsInfo record every declared field is present with a non-null value, and
the optional CurrentPerformer fields `ranking` and `class_year` default to
the literal "N/A" when not supplied; but the SportsInfo list fields
`current_performers` and `championship_results` have no empty-list default:
they are required, so a SportsInfo record can only be constructed when both
are supplied. -/
theorem record_schema_field_presence (input r : PyDict) :
    (validateModel UniversityInfo.fields input = .ok r →
       ∀ s ∈ UniversityInfo.fields, ∃ v, dictGet r s.name = some v ∧ v ≠ JValue.null) ∧
    (validateModel SportsInfo.fields input = .ok r →
       (∀ s ∈ SportsInfo.fields, ∃ v, dictGet r s.name = some v ∧ v ≠ JValue.null) ∧
       dictGet input "current_performers" ≠ none ∧
       dictGet input "championship_results" ≠ none) ∧
    (validateModel CurrentPerformer.fields input = .ok r →
       (dictGet input "ranking" = none → dictGet r "ranking" = some (.str "N/A")) ∧
       (dictGet input "class_year" = none → dictGet r "class_year" = some (.str "N/A"))) := by
  have hflat : ∀ {specs : List FieldSpec},
      (specs.map FieldSpec.name).Nodup →
      (∀ s ∈ specs, s.ty ≠ FieldTy.optStr ∧ s.default = none) →
      validateModel specs input = .ok r →
      ∀ s ∈ specs, ∃ v, dictGet r s.name = some v ∧ v ≠ JValue.null := by
    intro specs hnd hplain h s hs
    obtain ⟨v, hv, hor⟩ := validateModel_ok_fields hnd h s hs
    rcases hor with ⟨_, hty⟩ | ⟨_, hd⟩
    · exact ⟨v, hv, tyOk_ne_null (hplain s hs).1 hty⟩
    · rw [(hplain s hs).2] at hd
      cases hd
  refine ⟨?_, ?_, ?_⟩
  · intro h
    exact hflat (by decide)
      (by intro s hs; fin_cases hs <;> exact ⟨by decide, rfl⟩) h
  · intro h
    refine ⟨hflat (by decide)
      (by intro s hs; fin_cases hs <;> exact ⟨by decide, rfl⟩) h, ?_, ?_⟩
    · intro hnone
      obtain ⟨v, _, hor⟩ :=
        validateModel_ok_fields (by decide) h _ current_performers_mem_sports
      rcases hor with ⟨hin, _⟩ | ⟨_, hd⟩
      · rw [hnone] at hin
        cases hin
      · simp at hd
    · intro hnone
      obtain ⟨v, _, hor⟩ :=
        validateModel_ok_fields (by decide) h _ championship_results_mem_sports
      rcases hor with ⟨hin, _⟩ | ⟨_, hd⟩
      · rw [hnone] at hin
        cases hin
      · simp at hd
  · intro h
    constructor
    · intro hnone
      obtain ⟨v, hv, hor⟩ := validateModel_ok_fields (by decide) h
        (⟨"ranking", FieldTy.optStr, some (.str "N/A")⟩ : FieldSpec)
        (by simp [CurrentPerformer.fields])
      rcases hor with ⟨hin, _⟩ | ⟨_, hd⟩
      · rw [hnone] at hin
        cases hin
      · obtain rfl : JValue.str "N/A" = v := by simpa using hd
        exact hv
    · intro hnone
      obtain ⟨v, hv, hor⟩ := validateModel_ok_fields (by decide) h
        (⟨"class_year", FieldTy.optStr, some (.str "N/A")⟩ : FieldSpec)
        (by simp [CurrentPerformer.fields])
      rcases hor with ⟨hin, _⟩ | ⟨_, hd⟩
      · rw [hnone] at hin
        cases hin
      · obtain rfl : JValue.str "N/A" = v := by simpa using hd
        exact hv

/-- Witness for the amended C4: a concrete SportsInfo input with both list
fields supplied validates successfully, and the validated record binds
`current_performers` to a non-null (array) value. -/
theorem record_schema_field_presence_witness :
    ∃ r, validateModel SportsInfo.fields
      [("ncaa_division", .str "NCAA Division I"),
       ("conference", .str "ACC"),
       ("facilities", .str "N/A"),
       ("coaching_staff", .str "N/A"),
       ("team_roster", .str "N/A"),
       ("team_page_url", .str "N/A"),
       ("current_performers", .arr []),
       ("championship_results", .arr []),
       ("recruiting_standards", .str "N/A"),
       ("walk_on_standards", .str "N/A"),
       ("conference_qualifying_marks", .str "N/A"),
       ("team_depth_analysis", .str "N/A")] = .ok r ∧
    ∃ v, dictGet r "current_performers" = some v ∧ v ≠ JValue.null := by
  obtain ⟨r, hr⟩ : ∃ r, validateModel SportsInfo.fields
      [("ncaa_division", .str "NCAA Division I"),
       ("conference", .str "ACC"),
       ("facilities", .str "N/A"),
       ("coaching_staff", .str "N/A"),
       ("team_roster", .str "N/A"),
       ("team_page_url", .str "N/A"),
       ("current_performers", .arr []),
       ("championship_results", .arr []),
       ("recruiting_standards", .str "N/A"),
       ("walk_on_standards", .str "N/A"),
       ("conference_qualifying_marks", .str "N/A"),
       ("team_depth_analysis", .str "N/A")] = .ok r := ⟨_, rfl⟩
  exact ⟨r, hr, ((record_schema_field_presence _ r).2.1 hr).1 _ current_performers_mem_sports⟩

/-! ## Rendering of interpolated values (agent.py)

The f-strings of `create_agent_pipeline` interpolate profile values with
Python `str()`; `profile_to_string` additionally title-cases the keys.  The
renderings below model `str()` on the value shapes this program stores
(strings, ints, exact decimal floats, lists and dicts of strings). -/

/-- Fractional decimal digits of `num/den` (with `num < den`), up to `fuel`
digits, stopping at remainder zero. -/
def fracDigits : ℕ → ℕ → ℕ → String
  | 0, _, _ => ""
  | fuel + 1, num, den =>
      if num = 0 then ""
      else
        String.singleton (Char.ofNat (48 + num * 10 / den)) ++
          fracDigits fuel (num * 10 % den) den

/-- Python `str()` of a float: integer part, point, fractional digits
(`4.0` renders as "4.0"); the floats this program stores are exact
terminating decimals. -/
def floatStr (q : ℚ) : String :=
  let sign := if q < 0 then "-" else ""
  let n := q.num.natAbs
  let d := q.den
  let frac := fracDigits 30 (n % d) d
  sign ++ toString (n / d) ++ "." ++ (if frac = "" then "0" else frac)

mutual

/-- Python `str()` of a value (containers render their elements by `repr`). -/
def pyStr : JValue → String
  | .str s => s
  | .int n => toString n
  | .float q => floatStr q
  | .bool b => if b then "True" else "False"
  | .null => "None"
  | .arr xs => "[" ++ pyReprSeq xs ++ "]"
  | .obj m => "\x7b" ++ pyReprPairs m ++ "\x7d"

/-- Python `repr()` of a value (strings quoted). -/
def pyRepr : JValue → String
  | .str s => "\x27" ++ s ++ "\x27"
  | .int n => toString n
  | .float q => floatStr q
  | .bool b => if b then "True" else "False"
  | .null => "None"
  | .arr xs => "[" ++ pyReprSeq xs ++ "]"
  | .obj m => "\x7b" ++ pyReprPairs m ++ "\x7d"

/-- Comma-separated `repr`s of list elements. -/
def pyReprSeq : List JValue → String
  | [] => ""
  | [v] => pyRepr v
  | v :: rest => pyRepr v ++ ", " ++ pyReprSeq rest

/-- Comma-separated `'key': repr(value)` pairs of a dict. -/
def pyReprPairs : List (String × JValue) → String
  | [] => ""
  | [(k, v)] => "\x27" ++ k ++ "\x27: " ++ pyRepr v
  | (k, v) :: rest => "\x27" ++ k ++ "\x27: " ++ pyRepr v ++ ", " ++ pyReprPairs rest

end

/-- Python `str.title()` (ASCII): first letter of each alphabetic run
uppercased, the rest lowercased. -/
def pyTitle (s : String) : String :=
  (s.data.foldl (fun (acc : List Char × Bool) c =>
      if c.isAlpha then
        ((if acc.2 then c.toLower else c.toUpper) :: acc.1, true)
      else (c :: acc.1, false)) ([], false)).1.reverse.asString

/-- Source `profile_to_string` (agent.py lines 11–16): one `- Key Title: value`
line per profile entry, newline-separated. -/
def profile_to_string (profile : PyDict) : String :=
  String.intercalate "\n"
    (profile.map (fun kv => "- " ++ pyTitle (kv.1.replace "_" " ") ++ ": " ++ pyStr kv.2))

/-- Source `GEMINI_MODEL` (agent.py line 68). -/
def GEMINI_MODEL : String := "gemini-2.0-flash-001"

/-! ## Stage instruction templates (agent.py lines 129–381)

Each template is the value of the corresponding (f-)string of the source,
with the interpolated expressions as parameters.  Braces are written
`\x7b`/`\x7d` and apostrophes `\x27`. -/

/-- Instruction of `search_agent` (agent.py lines 132–143), a plain string. -/
def search_agent_instruction : String :=
  "\n        You are a research assistant for student-athletes.\n        Your task is to find official .edu webpages related to the student\x27s target college, including admissions stats, cost, fast facts, common data set, and about pages.\n\n    Use google_search tool to find 1–3 relevant URLs with queries such as:\n    - \"[college name] admissions statistics site:.edu\"\n    - \"[college name] fast facts site:.edu\"\n    - \"[college name] common data set site:.edu\"\n    - \"[college name] tuition site:.edu\"\n\n    Return the top 3–5 most relevant URLs as a simple list.\n    "

/-- Source `university_info_extractor_instruction` (agent.py lines 150–197):
an f-string interpolating only the rendered profile. -/
def university_info_extractor_instruction (profileStr : String) : String :=
  "\n    === STUDENT PROFILE ===\n    " ++
  profileStr ++
  "\n    === END STUDENT PROFILE ===\n\n    You are a specialized sports data researcher focusing on recruitment fit analysis.\n\n    CRITICAL TASK: You must collect specific performance data to assess whether this student-athlete could compete at this college level.\n\n    For Track and Field, search for and extract:\n    1. **Current team performance standards:**\n    - What times/marks are the current athletes posting in the student\x27s events?\n    - What are the team\x27s recruiting standards or walk-on standards?\n    - Conference qualifying marks for the student\x27s events\n\n    2. **Recent recruiting classes:**\n    - What caliber of athletes has this program recruited recently?\n    - What were their high school PRs when recruited?\n\n    3. **Team depth and opportunities:**\n    - How many athletes compete in the student\x27s events?\n    - Are there scholarship spots typically available?\n    - What\x27s the competition level for roster spots?\n\n    Use queries like:\n    - \"[college name] track field recruiting standards 2024-2025\"\n    - \"[college name] track field roster [student\x27s events] times marks\"\n    - \"[conference name] qualifying standards track field\"\n    - \"[college name] track field walk-on tryout standards\"\n\n    IMPORTANT: Include specific performance benchmarks in your extracted data so we can compare against the student\x27s abilities.\n \n\n    You are given URLs pointing to official college websites. Visit those URLs and extract relevant data matching the UniversityInfo schema below.\n    \n    IMPORTANT: After extracting the standard data, you MUST also analyze and comment on fit:\n    - Compare the student\x27s GPA to typical admitted students\n    - Compare the student\x27s test scores to the college\x27s ranges\n    - Note any information relevant to their sport\n    - Include these comparisons in the appropriate fields (don\x27t create new fields, but include analysis within existing fields)\n\n\n    Return data in JSON format strictly adhering to the UniversityInfo schema. Use \x27N/A\x27 for any missing fields.\n\n    UniversityInfo fields:\n    - college_name, college_type, campus_setting, campus_size, graduation_rate, acceptance_rate,\n      website, sat_range, act_range, regular_application_due, tuition, other_fees, student_body, race_ethnicity\n    "

/-- The line of instruction text opening the Track-and-Field strategy branch
(agent.py line 226). -/
def tf_branch_marker : String := "If the sport is \x27Track and Field\x27:"

/-- The line of instruction text opening the Swimming strategy branch
(agent.py line 235). -/
def swimming_branch_marker : String := "If the sport is \x27Swimming\x27:"

/-- The Track-and-Field strategy paragraph of the sports-extractor
instruction (agent.py lines 226–233); it interpolates the student's gender
into one query. -/
def tf_strategy_block (gender : String) : String :=
  "    " ++ tf_branch_marker ++
  "\n    - Prioritize TFRRS (Track & Field Results Reporting System) and official conference athletics websites.\n    - Use queries like:\n        - \"TFRRS [college name] track and field current season results\"\n        - \"NCAA Track and Field Statistics and Records official website\"\n        - \"[conference name] Track and Field Championship results 2024-2025 " ++
  gender ++
  "\"\n        - \"[college name] track and field top performers 2024-2025 [event categories]\"\n        - \"official website [conference name] athletics results\"\n"

/-- The Swimming strategy paragraph of the sports-extractor instruction
(agent.py lines 235–242). -/
def swimming_strategy_block (gender : String) : String :=
  "    " ++ swimming_branch_marker ++
  "\n    - Prioritize USA Swimming\x27s SWIMS database and official conference athletics websites.\n    - Use queries like:\n        - \"SWIMS 3.0 [college name] swimming current season\"\n        - \"NCAA Swimming and Diving Statistics and Records official website\"\n        - \"[conference name] Swimming and Diving Championship results 2024-2025 " ++
  gender ++
  "\"\n        - \"[college name] swimming top performers 2024-2025 [event categories]\"\n        - \"official website [conference name] swimming and diving results\"\n"

/-- Source `sports_info_extractor_instruction` (agent.py lines 208–254): an
f-string interpolating the rendered profile, the GPA, the sport and the
gender.  Both sport-strategy paragraphs are part of the template for every
profile; the "Dynamically select your search strategy" dispatch is text
addressed to the model, not Python control flow. -/
def sports_info_extractor_instruction (profileStr gpa sport gender : String) : String :=
  "\n    === STUDENT PROFILE ===\n    " ++
  profileStr ++
  "\n    === END STUDENT PROFILE ===\n\n    You MUST consider this student\x27s specific characteristics when extracting data:\n    - Focus on admission requirements relevant to their GPA (" ++
  gpa ++
  ") and test scores\n    - Prioritize cost information since financial considerations are important\n    - Look for information about " ++
  sport ++
  " programs if available\n\n    You are a specialized sports data researcher. Your task is to find official athletics information for a given college and sport,\n    specifically focusing on current season top performers and recent conference championship results.\n\n    Search for current " ++
  gender ++
  " " ++
  sport ++
  " roster and times for events like sprints, distance, throws, jumps - whatever the student\x27s focus area is\n\n    When searching, prioritize authoritative and up-to-date platforms.\n    Dynamically select your search strategy based on the sport:\n\n" ++
  tf_strategy_block gender ++
  "\n" ++
  swimming_strategy_block gender ++
  "\n    Extract the following information for the 2024-2025 season:\n    1.  **Top current performers:** For the specified college and within its conference, in event categories like \x27sprint\x27, \x27distance\x27, \x27long jump\x27 (adjust based on user input). Include their names, marks, rankings, and academic class.\n    2.  **Most recent conference championship final results:** For the specified sport, broken down by gender and event. Include event names, a list of all finalists (including their names and school/team), and their marks/times.\n\n    Return the extracted data in JSON format matching the SportsInfo schema below.\n    Use \x27N/A\x27 for any missing fields if information cannot be found.\n    Be precise in extracting names, marks/times, rankings, and academic class as they appear on official sources.\n\n    SportsInfo fields:\n    - ncaa_division, conference, facilities, coaching_staff, team_roster, team_page_url, current_performers, championship_results\n    "

/-- Source `missing_info_resolver_instruction` (agent.py lines 272–316): an
f-string interpolating the gender and the sport; the doubled braces of the
JSON example render as literal braces. -/
def missing_info_resolver_instruction (gender sport : String) : String :=
  "\n    You are a meticulous data consolidator. You are given:\n    1. Partially populated JSON data for \x27university_info\x27 (conforming to UniversityInfo schema).\n    2. Partially populated JSON data for \x27sports_info\x27 (conforming to SportsInfo schema).\n    3. The \x27target_college_name\x27.\n\n    Your tasks are as follows:\n\n    1.  **Comprehensive Review:**\n        *   Thoroughly examine the provided `university_info` (conforming to UniversityInfo schema) and `sports_info` (conforming to SportsInfo schema) objects.\n        *   Identify EVERY field, including nested fields within lists or sub-objects, that is currently marked \x27N/A\x27, is an empty string/list, or seems to be a placeholder indicating missing information.\n\n    2.  **Targeted Information Retrieval:**\n        *   For each identified missing piece of information, formulate highly specific `google_search` queries.\n        *   **Prioritize official sources:** For `university_details`, always prefer `.edu` domains of the `target_college_name`. For `athletics_details`, prioritize official athletic department websites, conference websites, and reputable sports data providers (e.g., TFRRS for Track & Field, SWIMS for Swimming).\n        *   **Iterative Searching:** If a first query doesn\x27t yield the result, try variations. For example, if \"[target_college_name] SAT range site:.edu\" fails, try \"[target_college_name] admissions statistics site:.edu\" and look for test score data.\n        *   **Contextual Search for Complex Data:**\n            *   For lists like `current_performers` or `championship_results`, if the list is empty or missing, search for the overall data (e.g., \"TFRRS [target_college_name] " ++
  gender ++
  " " ++
  sport ++
  " roster 2024-2025\").\n            *   If specific items within these lists are missing (e.g., a performer\x27s `class_year`), try to find that specific detail if the rest of the item is present.\n        *   **Example Queries (adapt these using the actual `target_college_name` and `student_profile_data` from the context):**\n            *   Missing `tuition` in `university_info`: \"[target_college_name] undergraduate tuition and fees site:.edu\"\n            *   Missing `coaching_staff` in `sports_info`: \"[target_college_name] " ++
  sport ++
  " coaching staff site:.edu athletics\"\n            *   Missing `current_performers` in `sports_info` for Track & Field: \"TFRRS [target_college_name] " ++
  gender ++
  " " ++
  sport ++
  " top performers 2024-2025\"\n            *   Missing `acceptance_rate` in `university_info`: \"[target_college_name] common data set admissions site:.edu\" OR \"[target_college_name] admissions facts site:.edu\"\n\n    3.  **Data Integration and Validation:**\n        *   Update the `university_info` and `sports_info` objects with the information you find.\n        *   **Persistence of \x27N/A\x27:** Only retain \x27N/A\x27 (or leave a field empty if appropriate for its type, e.g., an empty list) if, after diligent and varied search attempts, you confirm the information is genuinely unavailable, not published, or not applicable (e.g., ACT range for a test-blind school). Do not use \x27N/A\x27 if you simply couldn\x27t find it on the first try.\n\n    4.  **Structured Output Generation:**\n        *   After attempting to fill all missing information, you MUST structure your final output as a single JSON object conforming to the `ComprehensiveCollegeReportData` schema.\n        *   This means the final JSON must have three top-level keys:\n            *   `university_details`: Containing the updated UniversityInfo data.\n            *   `athletics_details`: Containing the updated SportsInfo data.\n            *   `target_college_name`: The original target college name you were given.\n\n    Example of the final output structure:\n    \x7b\n        \"university_details\": \x7b ... all UniversityInfo fields ... \x7d,\n        \"athletics_details\": \x7b ... all SportsInfo fields ... \x7d,\n        \"target_college_name\": \"Actual College Name\"\n    \x7d\n\n    Return this single, structured JSON object.\n    "

/-- Source `report_writer_agent_instruction` (agent.py lines 327–373): an
f-string interpolating only the rendered profile; its quadruple-braced
placeholders render as literal double-braced text. -/
def report_writer_agent_instruction (profileStr : String) : String :=
  "\n    === STUDENT PROFILE ===\n    " ++
  profileStr ++
  "\n    === END STUDENT PROFILE ===\n\n    CRITICAL: You must provide a detailed athletic fit assessment that includes:\n\n    1. **Performance Gap Analysis:**\n       - Compare the student\x27s current times/marks to the team\x27s current performers\n       - Compare to conference qualifying standards\n       - Assess how much improvement would be needed to contribute\n\n    2. **Recruitment Viability:**\n       - Based on team recruiting standards, assess recruitment likelihood\n       - Evaluate walk-on opportunities if applicable\n       - Consider the student\x27s improvement trajectory and potential\n\n    3. **Competitive Opportunity:**\n       - Analyze roster depth in the student\x27s events\n       - Assess realistic timeline for contributing to the team\n       - Consider scholarship availability\n\n    4. **Development Potential:**\n       - Factor in the student\x27s current level vs. what\x27s typical for recruits\n       - Consider coaching program\x27s track record of athlete development\n\n    Make this assessment specific and realistic - don\x27t just say \"great program\" but actually analyze whether this student could realistically compete there.\n\n    You are a professional college advisor specializing in student-athlete recruitment.\n    Write a comprehensive, professional, and empathetic report for the student-athlete.\n    You will receive a JSON object conforming to the `ComprehensiveCollegeReportData` schema. This object contains:\n    1. `university_details`: Academic and general information about the college.\n    2. `athletics_details`: Specifics about the college\x27s athletic programs, team performance, and recruiting for the student\x27s sport.\n    3. `target_college_name`: The name of the college.\n\n    The report should use this data to cover the following sections:\n    - **College Overview:** Briefly introduce the \x7b\x7b target_college_name \x7d\x7d.\n    - **Academic Profile Summary:** Based on `university_details`.\n    - **Athletics Program Summary:** Based on `athletics_details` for \x7b\x7b student_profile_data[\x27primary_sport\x27] \x7d\x7d.\n    - **Fit Assessment and Recommendations:** This is the most crucial part. Integrate insights from both academic and athletic data.\n    - Note any missing data (fields marked \x27N/A\x27 within `university_details` or `athletics_details`) clearly.\n\n    **Important Content Rules ( tái khẳng định ):**\n    - Do not fabricate data.\n    - Maintain Professional advisory tone.\n    - Do not make subjective judgements or provide personal opions on demographics. Simple state the facts.\n    "

/-! ## Agent pipeline construction and sequential-run semantics -/

/-- Configuration of one `LlmAgent` as constructed in `create_agent_pipeline`. -/
structure LlmAgentM where
  name : String
  model : String
  instruction : String
  description : String
  usesGoogleSearch : Bool
  output_key : String

/-- Configuration of the `SequentialAgent` orchestrator. -/
structure SequentialAgentM where
  name : String
  description : String
  sub_agents : List LlmAgentM

/-- Source `create_agent_pipeline` (agent.py lines 122–396), modelled as the
single pipeline-builder function its docstring and final `return root_agent`
lay out.  In the source file the `class ComprehensiveCollegeReportData`
statement at line 265 is dedented to column 0 in the middle of this function,
terminating the function body after the third agent and leaving the remaining
construction, including `return root_agent` at line 396, inside the class
suite — `return` outside a function, a compile-time syntax error, so the
module as written cannot be imported at all; the function modelled here is
the evident intent, and the slip is recorded with the pipeline claim.  The
dict subscripts inside the f-strings are the only fallible steps: a missing
key raises `KeyError` at template construction. -/
def create_agent_pipeline (student_profile_data : PyDict) :
    Except PyExc SequentialAgentM := do
  let profile_for_agent_string := profile_to_string student_profile_data
  let search_agent : LlmAgentM :=
    { name := "search_agent", model := GEMINI_MODEL,
      instruction := search_agent_instruction,
      description := "Finds relevant official .edu URLs for college information.",
      usesGoogleSearch := true, output_key := "university_search_results" }
  let university_info_extractor : LlmAgentM :=
    { name := "university_info_extractor", model := GEMINI_MODEL,
      instruction := university_info_extractor_instruction profile_for_agent_string,
      description := "Extracts structured university data from page content.",
      usesGoogleSearch := true, output_key := "university_info" }
  let gpa ← pyGetItem student_profile_data "unweighted_gpa"
  let sport ← pyGetItem student_profile_data "primary_sport"
  let gender ← pyGetItem student_profile_data "gender"
  let sports_info_extractor : LlmAgentM :=
    { name := "sports_info_extractor", model := GEMINI_MODEL,
      instruction := sports_info_extractor_instruction profile_for_agent_string
        (pyStr gpa) (pyStr sport) (pyStr gender),
      description := "Searches for and extracts athletics program data, including current performers and championship results.",
      usesGoogleSearch := true, output_key := "sports_info_extracted" }
  let missing_info_resolver : LlmAgentM :=
    { name := "missing_info_resolver", model := GEMINI_MODEL,
      instruction := missing_info_resolver_instruction (pyStr gender) (pyStr sport),
      description := "Fills missing university and sports info fields by targeted searches.",
      usesGoogleSearch := true, output_key := "completed_info" }
  let report_writer_agent : LlmAgentM :=
    { name := "report_writer_agent", model := GEMINI_MODEL,
      instruction := report_writer_agent_instruction profile_for_agent_string,
      description := "Creates comprehensive student-athlete college report.",
      usesGoogleSearch := false, output_key := "final_report" }
  return { name := "college_info_pipeline",
           description := "Comprehensive college research pipeline for student-athletes.",
           sub_agents := [search_agent, university_info_extractor, sports_info_extractor,
                          missing_info_resolver, report_writer_agent] }

/-- The session state threaded through a sequential run: a mapping from
output keys to produced text. -/
abbrev PipelineState := List (String × String)

/-- One stage of a sequential run: the agent's response — computed by the
opaque model/search capability `cap` from the agent configuration and the
state so far — is written under the agent's `output_key`. -/
def runStage (cap : LlmAgentM → PipelineState → String) (st : PipelineState)
    (agent : LlmAgentM) : PipelineState :=
  dictSet st agent.output_key (cap agent st)

/-- A `SequentialAgent` runs its sub-agents in declaration order, threading
the state. -/
def runPipeline (cap : LlmAgentM → PipelineState → String) (sa : SequentialAgentM)
    (st : PipelineState) : PipelineState :=
  sa.sub_agents.foldl (runStage cap) st

/-- The same run stopped after the first `n` stages. -/
def runPipelinePrefix (cap : LlmAgentM → PipelineState → String) (sa : SequentialAgentM)
    (n : ℕ) (st : PipelineState) : PipelineState :=
  (sa.sub_agents.take n).foldl (runStage cap) st

/-! ## Substring occurrence -/

/-- The string `sub` occurs contiguously inside `big`. -/
def strContains (big sub : String) : Prop :=
  ∃ p q : List Char, big.data = p ++ sub.data ++ q

theorem strDataAppend (a b : String) : (a ++ b).data = a.data ++ b.data := by
  cases a
  cases b
  rfl

theorem strContains_self (s : String) : strContains s s :=
  ⟨[], [], by simp⟩

theorem strContains_appendLeft (a : String) {big sub : String} (h : strContains big sub) :
    strContains (a ++ big) sub := by
  obtain ⟨p, q, hp⟩ := h
  exact ⟨a.data ++ p, q, by simp [strDataAppend, hp]⟩

theorem strContains_appendRight (b : String) {big sub : String} (h : strContains big sub) :
    strContains (big ++ b) sub := by
  obtain ⟨p, q, hp⟩ := h
  exact ⟨p, q ++ b.data, by simp [strDataAppend, hp]⟩

/-- Both sport-strategy paragraphs occur verbatim in the sports-extractor
instruction, whatever profile values are interpolated: the template embeds
the whole strategy table and performs no selection. -/
theorem sports_instruction_embeds_both_strategies (profileStr gpa sport gender : String) :
    strContains (sports_info_extractor_instruction profileStr gpa sport gender)
      tf_branch_marker ∧
    strContains (sports_info_extractor_instruction profileStr gpa sport gender)
      swimming_branch_marker := by
  have htf : strContains (tf_strategy_block gender) tf_branch_marker := by
    unfold tf_strategy_block
    exact strContains_appendRight _ (strContains_appendRight _ (strContains_appendRight _
      (strContains_appendLeft "    " (strContains_self _))))
  have hsw : strContains (swimming_strategy_block gender) swimming_branch_marker := by
    unfold swimming_strategy_block
    exact strContains_appendRight _ (strContains_appendRight _ (strContains_appendRight _
      (strContains_appendLeft "    " (strContains_self _))))
  unfold sports_info_extractor_instruction
  constructor
  · exact strContains_appendRight _ (strContains_appendRight _ (strContains_appendRight _
      (strContains_appendLeft _ htf)))
  · exact strContains_appendRight _ (strContains_appendLeft _ hsw)

/-- C6, counterexample — there is no per-sport stage configuration: for the
unhandled sport "Basketball" the constructed instruction still contains both
sport-specific strategy paragraphs verbatim (no generic fallback
configuration), and for sport "Track and Field" the instruction also contains
the Swimming strategy paragraph (no selection of "one fixed strategy").  The
only Python branch point is absent: selection is delegated to the model as
instruction text. -/
theorem sports_extractor_no_per_sport_config :
    (strContains (sports_info_extractor_instruction "" "3.95" "Basketball" "Female")
       tf_branch_marker ∧
     strContains (sports_info_extractor_instruction "" "3.95" "Basketball" "Female")
       swimming_branch_marker) ∧
    strContains (sports_info_extractor_instruction "" "3.95" "Track and Field" "Female")
      swimming_branch_marker :=
  ⟨sports_instruction_embeds_both_strategies "" "3.95" "Basketball" "Female",
   (sports_instruction_embeds_both_strategies "" "3.95" "Track and Field" "Female").2⟩

/-- C6, amended — the Sports Extraction stage's Python code performs no
branch on `primary_sport`: the single fixed instruction template embeds both
the "Track and Field" and the "Swimming" strategy paragraphs (plus the
generic directions) for every sport value, differing across sports only in
the interpolated profile values, and the "Dynamically select your search
strategy" dispatch is delegated to the capability as instruction text. -/
theorem sports_extractor_strategy_in_template (profileStr gpa sport gender : String) :
    strContains (sports_info_extractor_instruction profileStr gpa sport gender)
      tf_branch_marker ∧
    strContains (sports_info_extractor_instruction profileStr gpa sport gender)
      swimming_branch_marker :=
  sports_instruction_embeds_both_strategies profileStr gpa sport gender

/-! ## Pipeline-level claims -/

/-- C1 — the pipeline laid out by `create_agent_pipeline` (see its doc
comment for the layout slip recorded with this claim) consists of exactly the
five stages discovery search, university extraction, sports extraction,
consolidation, report writing, in that order; their five output keys are
pairwise distinct; and under the sequential-run semantics the value a stage
wrote under its key is still there at the end of the run, for every
capability behaviour and every initial state: a key once written is never
overwritten by a later stage. -/
theorem pipeline_five_stages_no_overwrite (profile : PyDict) (pl : SequentialAgentM)
    (h : create_agent_pipeline profile = .ok pl)
    (cap : LlmAgentM → PipelineState → String) (st : PipelineState) :
    pl.sub_agents.map LlmAgentM.name =
      ["search_agent", "university_info_extractor", "sports_info_extractor",
       "missing_info_resolver", "report_writer_agent"] ∧
    pl.sub_agents.map LlmAgentM.output_key =
      ["university_search_results", "university_info", "sports_info_extracted",
       "completed_info", "final_report"] ∧
    (["university_search_results", "university_info", "sports_info_extracted",
      "completed_info", "final_report"] : List String).Nodup ∧
    dictGet (runPipeline cap pl st) "university_search_results" =
      dictGet (runPipelinePrefix cap pl 1 st) "university_search_results" ∧
    dictGet (runPipeline cap pl st) "university_info" =
      dictGet (runPipelinePrefix cap pl 2 st) "university_info" ∧
    dictGet (runPipeline cap pl st) "sports_info_extracted" =
      dictGet (runPipelinePrefix cap pl 3 st) "sports_info_extracted" ∧
    dictGet (runPipeline cap pl st) "completed_info" =
      dictGet (runPipelinePrefix cap pl 4 st) "completed_info" ∧
    dictGet (runPipeline cap pl st) "final_report" =
      dictGet (runPipelinePrefix cap pl 5 st) "final_report" := by
  obtain ⟨gpa, hg⟩ : ∃ v, dictGet profile "unweighted_gpa" = some v := by
    cases hg : dictGet profile "unweighted_gpa" with
    | none => simp [create_agent_pipeline, pyGetItem, hg, bind, Except.bind] at h
    | some v => exact ⟨v, rfl⟩
  obtain ⟨sport, hs⟩ : ∃ v, dictGet profile "primary_sport" = some v := by
    cases hs : dictGet profile "primary_sport" with
    | none => simp [create_agent_pipeline, pyGetItem, hg, hs, bind, Except.bind] at h
    | some v => exact ⟨v, rfl⟩
  obtain ⟨gender, hgen⟩ : ∃ v, dictGet profile "gender" = some v := by
    cases hgen : dictGet profile "gender" with
    | none => simp [create_agent_pipeline, pyGetItem, hg, hs, hgen, bind, Except.bind] at h
    | some v => exact ⟨v, rfl⟩
  simp only [create_agent_pipeline, pyGetItem, hg, hs, hgen, bind, Except.bind,
    pure, Except.pure] at h
  rw [Except.ok.injEq] at h
  subst h
  refine ⟨rfl, rfl, by decide, ?_, ?_, ?_, ?_, ?_⟩
  · simp only [runPipeline, runPipelinePrefix, runStage, List.take, List.foldl]
    rw [dictGet_dictSet_ne _ _ _ _ (by decide), dictGet_dictSet_ne _ _ _ _ (by decide),
        dictGet_dictSet_ne _ _ _ _ (by decide), dictGet_dictSet_ne _ _ _ _ (by decide)]
  · simp only [runPipeline, runPipelinePrefix, runStage, List.take, List.foldl]
    rw [dictGet_dictSet_ne _ _ _ _ (by decide), dictGet_dictSet_ne _ _ _ _ (by decide),
        dictGet_dictSet_ne _ _ _ _ (by decide)]
  · simp only [runPipeline, runPipelinePrefix, runStage, List.take, List.foldl]
    rw [dictGet_dictSet_ne _ _ _ _ (by decide), dictGet_dictSet_ne _ _ _ _ (by decide)]
  · simp only [runPipeline, runPipelinePrefix, runStage, List.take, List.foldl]
    rw [dictGet_dictSet_ne _ _ _ _ (by decide)]
  · simp only [runPipeline, runPipelinePrefix, runStage, List.take, List.foldl]

/-- Witness for C1: the pipeline built from the default profile, with its
five output keys, run under a trivial capability. -/
theorem pipeline_five_stages_no_overwrite_witness :
    ∃ pl, create_agent_pipeline get_default_profile = .ok pl ∧
      pl.sub_agents.map LlmAgentM.output_key =
        ["university_search_results", "university_info", "sports_info_extracted",
         "completed_info", "final_report"] ∧
      dictGet (runPipeline (fun _ _ => "output") pl []) "university_search_results" =
        dictGet (runPipelinePrefix (fun _ _ => "output") pl 1 []) "university_search_results" := by
  obtain ⟨pl, hpl⟩ : ∃ pl, create_agent_pipeline get_default_profile = .ok pl := ⟨_, rfl⟩
  have hmain := pipeline_five_stages_no_overwrite get_default_profile pl hpl
    (fun _ _ => "output") []
  exact ⟨pl, hpl, hmain.2.1, hmain.2.2.2.1⟩

/-- C10 — `create_agent_pipeline` requires exactly the profile keys
`unweighted_gpa`, `primary_sport` and `gender`: it succeeds on every profile
dict binding all three (whatever else the dict contains), and on a profile
missing one of them it raises `KeyError` during construction — the f-string
subscript fails — rather than degrading to the "N/A" sentinel. -/
theorem create_agent_pipeline_key_requirements (profile : PyDict) :
    ((∃ a, dictGet profile "unweighted_gpa" = some a) →
     (∃ b, dictGet profile "primary_sport" = some b) →
     (∃ c, dictGet profile "gender" = some c) →
     ∃ pl, create_agent_pipeline profile = .ok pl) ∧
    (dictGet profile "unweighted_gpa" = none →
      create_agent_pipeline profile = .error (.keyError "unweighted_gpa")) ∧
    (dictGet profile "primary_sport" = none →
      ∃ k, create_agent_pipeline profile = .error (.keyError k) ∧
        (k = "unweighted_gpa" ∨ k = "primary_sport")) ∧
    (dictGet profile "gender" = none →
      ∃ k, create_agent_pipeline profile = .error (.keyError k) ∧
        (k = "unweighted_gpa" ∨ k = "primary_sport" ∨ k = "gender")) := by
  refine ⟨?_, ?_, ?_, ?_⟩
  · rintro ⟨a, ha⟩ ⟨b, hb⟩ ⟨c, hc⟩
    simp only [create_agent_pipeline, pyGetItem, ha, hb, hc, bind, Except.bind,
      pure, Except.pure]
    exact ⟨_, rfl⟩
  · intro ha
    simp only [create_agent_pipeline, pyGetItem, ha, bind, Except.bind]
  · intro hb
    cases ha : dictGet profile "unweighted_gpa" with
    | none =>
        exact ⟨"unweighted_gpa",
          by simp only [create_agent_pipeline, pyGetItem, ha, bind, Except.bind],
          Or.inl rfl⟩
    | some a =>
        exact ⟨"primary_sport",
          by simp only [create_agent_pipeline, pyGetItem, ha, hb, bind, Except.bind],
          Or.inr rfl⟩
  · intro hc
    cases ha : dictGet profile "unweighted_gpa" with
    | none =>
        exact ⟨"unweighted_gpa",
          by simp only [create_agent_pipeline, pyGetItem, ha, bind, Except.bind],
          Or.inl rfl⟩
    | some a =>
        cases hb : dictGet profile "primary_sport" with
        | none =>
            exact ⟨"primary_sport",
              by simp only [create_agent_pipeline, pyGetItem, ha, hb, bind, Except.bind],
              Or.inr (Or.inl rfl)⟩
        | some b =>
            exact ⟨"gender",
              by simp only [create_agent_pipeline, pyGetItem, ha, hb, hc, bind, Except.bind],
              Or.inr (Or.inr rfl)⟩

/-- Witness for C10: the empty profile dict fails with `KeyError
'unweighted_gpa'`; the default profile (which binds all three keys)
succeeds. -/
theorem create_agent_pipeline_key_requirements_witness :
    create_agent_pipeline [] = .error (.keyError "unweighted_gpa") ∧
    ∃ pl, create_agent_pipeline get_default_profile = .ok pl :=
  ⟨(create_agent_pipeline_key_requirements []).2.1 rfl,
   (create_agent_pipeline_key_requirements get_default_profile).1
     ⟨_, rfl⟩ ⟨_, rfl⟩ ⟨_, rfl⟩⟩

end AdmissionsAI
